import Mathlib

/-!
Verification of the LuckPay wager settlement engine.

The repository implements a two-party coin-flip wager settled on chain.
The TypeScript sources (SDK, client hook, tests) are embedded directly.
The on-chain program itself (src/lib.rs) is not part of the repository
snapshot; where a definition depends on it, the definition is modelled
from the specification and from the program fragments quoted in the
VRF integration guide, and is marked as such in its doc comment.

Amounts and identities are modelled as natural numbers (lamports are
unsigned 64-bit integers on chain; none of the verified properties
involve overflow at the quantities the program admits, and the guide's
fragments use plain arithmetic).
-/

namespace LuckPay

/-- Coin side chosen by the bettor and observed at resolution.
From the program fragment in the VRF guide and sdk/luckpay-sdk.ts. -/
inductive CoinSide
  | Heads
  | Tails
deriving DecidableEq, Repr

/-- Lifecycle state of a wager: strictly forward
Created, RandomnessRequested, Resolved.
From the tests (created / randomnessRequested / resolved variants). -/
inductive GameState
  | Created
  | RandomnessRequested
  | Resolved
deriving DecidableEq, Repr

/-- Error taxonomy of the settlement engine, as surfaced in the tests. -/
inductive LuckPayError
  | InvalidBetAmount
  | BetTooHigh
  | InvalidGameState
  | RandomnessNotReady
  | AccountNotInitialized
deriving DecidableEq, Repr

/-- Result record written exactly once at resolution:
observed side, bettor-won flag, raw random byte.
Layout from useLuckPaySimple.ts result parsing and sdk GameResult. -/
structure GameResult where
  coin_result : CoinSide
  player_won : Bool
  random_value : Nat
deriving DecidableEq, Repr

/-- The Wager record (called Game throughout the sources). Identities are
modelled as naturals. Fields from the account layout parsed in
useLuckPaySimple.ts and the sdk GameAccount interface. -/
structure Game where
  player : Nat
  recipient : Nat
  bet_amount : Nat
  choice : CoinSide
  discount_percentage : Nat
  game_state : GameState
  created_at : Nat
  result : Option GameResult
deriving DecidableEq, Repr

/-- The singleton Config record.
Fields from the sdk ConfigAccount interface and tests/luckpay.ts. -/
structure Config where
  authority : Nat
  max_bet_amount : Nat
  total_games : Nat
  total_volume : Nat
deriving DecidableEq, Repr

/-- Coin flip from the raw random byte. From the resolve_game fragment in
the VRF guide (random_byte % 2 == 0 gives Heads, else Tails), identical
to the simulation in tests/simple-test.ts. -/
def coinResultOfByte (random_byte : Nat) : CoinSide :=
  if random_byte % 2 == 0 then CoinSide.Heads else CoinSide.Tails

/-- Bettor-won flag. From the resolve_game fragment in the VRF guide:
player_won = coin_result == game.choice. -/
def playerWon (coin_result choice : CoinSide) : Bool :=
  coin_result == choice

/-- Modelled from the spec: the payout computation of resolve_game
(src/lib.rs is not in the repository snapshot). On a win the recipient
receives betAmount × (100 − discountPercentage) / 100 with integer floor
division and the bettor is refunded the remainder of the 2×betAmount
worst-case exposure; on a loss the recipient receives betAmount × 2 and
the bettor is refunded nothing. Matches the expectations in
tests/luckpay.ts (75 percent and 0 percent discount tests). -/
def payout (bet_amount discount_percentage : Nat) (player_won : Bool) :
    Nat × Nat :=
  if player_won then
    let receipt := bet_amount * (100 - discount_percentage) / 100
    (receipt, bet_amount * 2 - receipt)
  else
    (bet_amount * 2, 0)

/-- Modelled from the spec: the create_game instruction of the on-chain
program (src/lib.rs is not in the repository snapshot). Checks
betAmount > 0 (else InvalidBetAmount) and betAmount ≤ Config.maxBet
(else BetTooHigh), then allocates the wager with state Created, as the
tests in tests/luckpay.ts observe. -/
def create_game (config : Config) (player recipient bet_amount : Nat)
    (choice : CoinSide) (discount_percentage : Nat) (now : Nat) :
    Except LuckPayError Game :=
  if bet_amount = 0 then
    Except.error LuckPayError.InvalidBetAmount
  else if config.max_bet_amount < bet_amount then
    Except.error LuckPayError.BetTooHigh
  else
    Except.ok
      { player := player
        recipient := recipient
        bet_amount := bet_amount
        choice := choice
        discount_percentage := discount_percentage
        game_state := GameState.Created
        created_at := now
        result := none }

/-- Randomness request transition. From the request_randomness fragment in
the VRF guide: requires game_state == Created (else InvalidGameState),
then sets game_state to RandomnessRequested. -/
def request_randomness (game : Game) : Except LuckPayError Game :=
  if game.game_state = GameState.Created then
    Except.ok { game with game_state := GameState.RandomnessRequested }
  else
    Except.error LuckPayError.InvalidGameState

/-- Outcome of a successful resolution: the updated wager and config plus
the two transfers the engine performs. -/
structure ResolveOutcome where
  game : Game
  config : Config
  recipient_receipt : Nat
  bettor_refund : Nat
deriving DecidableEq, Repr

/-- Resolution. The state guard and the coin-flip parity are from the
resolve_game fragment in the VRF guide (requires
game_state == RandomnessRequested, else InvalidGameState). The payout
and the counter updates are modelled from the spec, since src/lib.rs is
not in the repository snapshot: the result record is written once, the
state moves to Resolved, and Config counters advance by one wager and
by the bet amount. -/
def resolve_game (game : Game) (config : Config) (random_byte : Nat) :
    Except LuckPayError ResolveOutcome :=
  if game.game_state = GameState.RandomnessRequested then
    let coin_result := coinResultOfByte random_byte
    let won := playerWon coin_result game.choice
    let p := payout game.bet_amount game.discount_percentage won
    Except.ok
      { game :=
          { game with
            game_state := GameState.Resolved
            result := some
              { coin_result := coin_result
                player_won := won
                random_value := random_byte } }
        config :=
          { config with
            total_games := config.total_games + 1
            total_volume := config.total_volume + game.bet_amount }
        recipient_receipt := p.1
        bettor_refund := p.2 }
  else
    Except.error LuckPayError.InvalidGameState

/-- Account-level view used for creation and closure: the wager record (an
account that may not exist), the relevant native balances, and the
allocation (rent) deposit currently held by the wager record. -/
structure Ledger where
  game : Option Game
  bettor_balance : Nat
  recipient_balance : Nat
  treasury_balance : Nat
  deposit : Nat
deriving DecidableEq, Repr

/-- Reading the wager record: a read of a nonexistent (never created or
already closed) account fails with AccountNotInitialized, as the tests
observe after close_game. -/
def read_game (L : Ledger) : Except LuckPayError Game :=
  match L.game with
  | none => Except.error LuckPayError.AccountNotInitialized
  | some g => Except.ok g

/-- Modelled from the spec: creation at the ledger level (src/lib.rs is
not in the repository snapshot). On success the wager record is
allocated and the bettor is charged only the allocation deposit plus
transaction fees; no bet funds move, the Treasury and the recipient are
untouched, as the balance assertions in tests/luckpay.ts observe. -/
def create_game_ledger (config : Config) (L : Ledger)
    (player recipient bet_amount : Nat) (choice : CoinSide)
    (discount_percentage now deposit fee : Nat) :
    Except LuckPayError Ledger :=
  match create_game config player recipient bet_amount choice
      discount_percentage now with
  | Except.error e => Except.error e
  | Except.ok g =>
      Except.ok
        { game := some g
          bettor_balance := L.bettor_balance - (deposit + fee)
          recipient_balance := L.recipient_balance
          treasury_balance := L.treasury_balance
          deposit := deposit }

/-- Modelled from the spec: the close_game instruction (src/lib.rs is not
in the repository snapshot). Permitted only from the Resolved state
(nonexistent record: AccountNotInitialized; wrong state:
InvalidGameState); deallocates the record and returns its allocation
deposit to the bettor, as the closing test in tests/luckpay.ts
observes. -/
def close_game (L : Ledger) : Except LuckPayError Ledger :=
  match L.game with
  | none => Except.error LuckPayError.AccountNotInitialized
  | some g =>
      if g.game_state = GameState.Resolved then
        Except.ok
          { game := none
            bettor_balance := L.bettor_balance + L.deposit
            recipient_balance := L.recipient_balance
            treasury_balance := L.treasury_balance
            deposit := 0 }
      else
        Except.error LuckPayError.InvalidGameState

/-- Config bootstrap over the singleton slot. The existence check and the
no-op path are from useLuckPaySimple.ts initializeConfig; the
allocation itself (authority = caller, maxBet = input, counters = 0) is
modelled from the spec and the first test in tests/luckpay.ts, since
src/lib.rs is not in the repository snapshot. -/
def initializeConfig (slot : Option Config) (caller max_bet : Nat) :
    Option Config :=
  match slot with
  | some c => some c
  | none =>
      some
        { authority := caller
          max_bet_amount := max_bet
          total_games := 0
          total_volume := 0 }

/-- Verdict of the pre-flight treasury solvency check. -/
structure TreasuryCheck where
  sufficient : Bool
  available : Nat
  required : Nat
deriving DecidableEq, Repr

namespace SDK

/-- From sdk/luckpay-sdk.ts checkTreasuryBalance: escrow is 2× the send
amount and the required total is sendAmount + escrowAmount. -/
def checkTreasuryBalance (treasuryBalance sendAmount : Nat) :
    TreasuryCheck :=
  let escrowAmount := sendAmount * 2
  let required := sendAmount + escrowAmount
  { sufficient := decide (required ≤ treasuryBalance)
    available := treasuryBalance
    required := required }

end SDK

namespace Hook

/-- From ui/app/hooks/useLuckPaySimple.ts checkTreasuryBalance: escrow is
2× the send amount, requiredForRecipient is the send amount,
requiredForRefund is the escrow, and the total is their sum. The
SOL-denominated display fields are omitted. -/
def checkTreasuryBalance (treasuryBalance sendAmount : Nat) :
    TreasuryCheck :=
  let escrowAmount := sendAmount * 2
  let requiredForRecipient := sendAmount
  let requiredForRefund := escrowAmount
  let totalRequired := requiredForRecipient + requiredForRefund
  { sufficient := decide (totalRequired ≤ treasuryBalance)
    available := treasuryBalance
    required := totalRequired }

/-- From ui/app/hooks/useLuckPaySimple.ts playGame: the pre-flight gate
run by the calling layer before the bundled
create/request/resolve transaction is built. The wallet must cover the
2× worst case plus a 10000-lamport fee buffer, and checkTreasuryBalance
must report sufficient; otherwise playGame throws before any
instruction is submitted. -/
def playGamePreflight (walletBalance treasuryBalance betAmount : Nat) :
    Bool :=
  let maxCost := betAmount * 2
  let minRequired := maxCost + 10000
  if walletBalance < minRequired then
    false
  else
    (checkTreasuryBalance treasuryBalance betAmount).sufficient

end Hook

/-- Concrete config for witness evaluations. -/
def sampleConfig : Config :=
  { authority := 9
    max_bet_amount := 100
    total_games := 0
    total_volume := 0 }

/-- Concrete wager awaiting resolution, for witness evaluations. -/
def sampleWager : Game :=
  { player := 1
    recipient := 2
    bet_amount := 7
    choice := CoinSide.Heads
    discount_percentage := 30
    game_state := GameState.RandomnessRequested
    created_at := 0
    result := none }

/-- Outcome of resolving sampleWager with random byte 140 (even, Heads,
bettor wins; receipt 7 × 70 / 100 = 4, refund 14 − 4 = 10). -/
def sampleOutcome : ResolveOutcome :=
  { game :=
      { sampleWager with
        game_state := GameState.Resolved
        result := some
          { coin_result := CoinSide.Heads
            player_won := true
            random_value := 140 } }
    config := { sampleConfig with total_games := 1, total_volume := 7 }
    recipient_receipt := 4
    bettor_refund := 10 }

/-- Concrete wager still in the Created state. -/
def sampleCreatedWager : Game :=
  { sampleWager with game_state := GameState.Created }

/-- Concrete resolved wager whose record is still allocated. -/
def sampleResolvedWager : Game :=
  { sampleWager with
    game_state := GameState.Resolved
    result := some
      { coin_result := CoinSide.Heads
        player_won := true
        random_value := 140 } }

/-- Ledger holding sampleResolvedWager with a 5-lamport deposit. -/
def sampleResolvedLedger : Ledger :=
  { game := some sampleResolvedWager
    bettor_balance := 50
    recipient_balance := 20
    treasury_balance := 300
    deposit := 5 }

/-- The ledger after closing sampleResolvedLedger. -/
def sampleClosedLedger : Ledger :=
  { game := none
    bettor_balance := 55
    recipient_balance := 20
    treasury_balance := 300
    deposit := 0 }

/-- Ledger with no wager record yet. -/
def sampleFreshLedger : Ledger :=
  { game := none
    bettor_balance := 50
    recipient_balance := 20
    treasury_balance := 300
    deposit := 0 }

/-- The ledger after creating a 7-lamport wager on sampleFreshLedger with
deposit 5 and fee 3. -/
def sampleCreatedLedger : Ledger :=
  { game := some sampleCreatedWager
    bettor_balance := 42
    recipient_balance := 20
    treasury_balance := 300
    deposit := 5 }

/-- The win-path receipt never exceeds the bet amount, for any discount. -/
lemma winReceipt_le_bet (bet d : Nat) : bet * (100 - d) / 100 ≤ bet := by
  have h1 : bet * (100 - d) ≤ bet * 100 :=
    Nat.mul_le_mul_left bet (Nat.sub_le 100 d)
  have h2 : bet * (100 - d) / 100 ≤ bet * 100 / 100 :=
    Nat.div_le_div_right h1
  have h3 : bet * 100 / 100 = bet := by omega
  omega

/-- C1: for every resolved wager, for every discount percentage in [0,100]
and bet amount > 0, the recipient's receipt plus the bettor's refund
equals exactly betAmount × 2, whether the bettor won or lost; no
remainder is lost or created. -/
theorem resolve_conserves_funds (game : Game) (config : Config)
    (random_byte : Nat) (out : ResolveOutcome)
    (hd : game.discount_percentage ≤ 100) (hb : 0 < game.bet_amount)
    (h : resolve_game game config random_byte = Except.ok out) :
    out.recipient_receipt + out.bettor_refund = game.bet_amount * 2 := by
  unfold resolve_game at h
  split at h
  · injection h with h'
    subst h'
    simp only [payout]
    split
    · have := winReceipt_le_bet game.bet_amount game.discount_percentage
      simp only []
      omega
    · simp
  · exact absurd h (by simp)

/-- Witness for C1 at sampleWager with random byte 140. -/
theorem resolve_conserves_funds_witness :
    sampleWager.discount_percentage ≤ 100 ∧ 0 < sampleWager.bet_amount ∧
    sampleOutcome.recipient_receipt + sampleOutcome.bettor_refund =
      sampleWager.bet_amount * 2 :=
  ⟨by decide, by decide,
    resolve_conserves_funds sampleWager sampleConfig 140 sampleOutcome
      (by decide) (by decide) (by rfl)⟩

/-- C2: a wager resolved with bettor-won pays the recipient
floor(betAmount × (100 − discountPct) / 100) and refunds the bettor
betAmount × 2 minus that receipt; a wager resolved with bettor-lost
pays the recipient betAmount × 2 and refunds the bettor 0. -/
theorem resolve_payout_law (game : Game) (config : Config)
    (random_byte : Nat) (out : ResolveOutcome) (res : GameResult)
    (h : resolve_game game config random_byte = Except.ok out)
    (hres : out.game.result = some res) :
    (res.player_won = true →
       out.recipient_receipt =
         game.bet_amount * (100 - game.discount_percentage) / 100 ∧
       out.bettor_refund = game.bet_amount * 2 - out.recipient_receipt) ∧
    (res.player_won = false →
       out.recipient_receipt = game.bet_amount * 2 ∧
       out.bettor_refund = 0) := by
  unfold resolve_game at h
  split at h
  · injection h with h'
    subst h'
    simp only [Option.some.injEq] at hres
    subst hres
    simp only [payout]
    by_cases hw : playerWon (coinResultOfByte random_byte) game.choice = true
    · simp [hw]
    · simp only [Bool.not_eq_true] at hw
      simp [hw]
  · exact absurd h (by simp)

/-- Witness for C2 at sampleWager with random byte 140 (bettor wins). -/
theorem resolve_payout_law_witness :
    sampleOutcome.game.result = some
      { coin_result := CoinSide.Heads
        player_won := true
        random_value := 140 } ∧
    sampleOutcome.recipient_receipt =
      sampleWager.bet_amount * (100 - sampleWager.discount_percentage) / 100 ∧
    sampleOutcome.bettor_refund =
      sampleWager.bet_amount * 2 - sampleOutcome.recipient_receipt :=
  ⟨by rfl,
    (resolve_payout_law sampleWager sampleConfig 140 sampleOutcome
      { coin_result := CoinSide.Heads, player_won := true, random_value := 140 }
      (by rfl) (by rfl)).1 (by rfl)⟩

/-- C3: the wager lifecycle only moves strictly forward
Created, then RandomnessRequested, then Resolved, with no skipping,
backward transition, or re-entry: request_randomness fails
InvalidGameState unless the state is Created (and on success moves
Created to RandomnessRequested), resolve_game fails InvalidGameState
unless the state is RandomnessRequested (and on success moves it to
Resolved), and close_game fails with InvalidGameState or
AccountNotInitialized unless the state is Resolved. -/
theorem lifecycle_strictly_forward :
    (∀ game : Game, game.game_state ≠ GameState.Created →
       request_randomness game =
         Except.error LuckPayError.InvalidGameState) ∧
    (∀ (game g' : Game), request_randomness game = Except.ok g' →
       game.game_state = GameState.Created ∧
       g'.game_state = GameState.RandomnessRequested) ∧
    (∀ (game : Game) (config : Config) (b : Nat),
       game.game_state ≠ GameState.RandomnessRequested →
       resolve_game game config b =
         Except.error LuckPayError.InvalidGameState) ∧
    (∀ (game : Game) (config : Config) (b : Nat) (out : ResolveOutcome),
       resolve_game game config b = Except.ok out →
       game.game_state = GameState.RandomnessRequested ∧
       out.game.game_state = GameState.Resolved) ∧
    (∀ L : Ledger, L.game = none →
       close_game L = Except.error LuckPayError.AccountNotInitialized) ∧
    (∀ (L : Ledger) (g : Game), L.game = some g →
       g.game_state ≠ GameState.Resolved →
       close_game L = Except.error LuckPayError.InvalidGameState) := by
  refine ⟨?_, ?_, ?_, ?_, ?_, ?_⟩
  · intro game hs
    simp [request_randomness, hs]
  · intro game g' h
    unfold request_randomness at h
    split at h
    · injection h with h'
      subst h'
      constructor
      · assumption
      · rfl
    · exact absurd h (by simp)
  · intro game config b hs
    simp [resolve_game, hs]
  · intro game config b out h
    unfold resolve_game at h
    split at h
    · injection h with h'
      subst h'
      constructor
      · assumption
      · rfl
    · exact absurd h (by simp)
  · intro L hL
    simp [close_game, hL]
  · intro L g hL hs
    simp [close_game, hL, hs]

/-- Witness for C3: resolving a wager still in the Created state fails
with InvalidGameState, and requesting randomness on a resolved wager
fails with InvalidGameState. -/
theorem lifecycle_strictly_forward_witness :
    resolve_game sampleCreatedWager sampleConfig 7 =
      Except.error LuckPayError.InvalidGameState ∧
    request_randomness sampleResolvedWager =
      Except.error LuckPayError.InvalidGameState :=
  ⟨lifecycle_strictly_forward.2.2.1 sampleCreatedWager sampleConfig 7
      (by decide),
    lifecycle_strictly_forward.1 sampleResolvedWager (by decide)⟩

/-- C4: the observed side is Heads iff the raw random byte is even (Tails
iff odd), and the bettor-won flag written into the result is true iff
the observed side equals the wager's chosen side. -/
theorem outcome_parity_law :
    (∀ b : Nat, coinResultOfByte b = CoinSide.Heads ↔ b % 2 = 0) ∧
    (∀ b : Nat, coinResultOfByte b = CoinSide.Tails ↔ b % 2 ≠ 0) ∧
    (∀ c choice : CoinSide, playerWon c choice = true ↔ c = choice) ∧
    (∀ (game : Game) (config : Config) (b : Nat) (out : ResolveOutcome),
       resolve_game game config b = Except.ok out →
       out.game.result = some
         { coin_result := coinResultOfByte b
           player_won := playerWon (coinResultOfByte b) game.choice
           random_value := b }) := by
  refine ⟨?_, ?_, ?_, ?_⟩
  · intro b
    by_cases hb : b % 2 = 0 <;> simp [coinResultOfByte, hb]
  · intro b
    by_cases hb : b % 2 = 0 <;> simp [coinResultOfByte, hb]
  · intro c choice
    cases c <;> cases choice <;> simp [playerWon]
  · intro game config b out h
    unfold resolve_game at h
    split at h
    · injection h with h'
      subst h'
      rfl
    · exact absurd h (by simp)

/-- Witness for C4: resolving sampleWager with byte 140 (even) records
Heads, matching the choice, so bettor-won is true. -/
theorem outcome_parity_law_witness :
    sampleOutcome.game.result = some
      { coin_result := coinResultOfByte 140
        player_won := playerWon (coinResultOfByte 140) sampleWager.choice
        random_value := 140 } :=
  outcome_parity_law.2.2.2 sampleWager sampleConfig 140 sampleOutcome
    (by rfl)

/-- C5: create_game with betAmount = 0 fails with InvalidBetAmount,
create_game with betAmount greater than Config.maxBet fails with
BetTooHigh, and for every betAmount with 0 < betAmount ≤ Config.maxBet
create_game succeeds with the resulting wager in the Created state. -/
theorem create_game_validation :
    (∀ (config : Config) (player recipient : Nat) (choice : CoinSide)
       (d now : Nat),
       create_game config player recipient 0 choice d now =
         Except.error LuckPayError.InvalidBetAmount) ∧
    (∀ (config : Config) (player recipient bet : Nat) (choice : CoinSide)
       (d now : Nat),
       config.max_bet_amount < bet →
       create_game config player recipient bet choice d now =
         Except.error LuckPayError.BetTooHigh) ∧
    (∀ (config : Config) (player recipient bet : Nat) (choice : CoinSide)
       (d now : Nat),
       0 < bet → bet ≤ config.max_bet_amount →
       ∃ g, create_game config player recipient bet choice d now =
              Except.ok g ∧
            g.game_state = GameState.Created) := by
  refine ⟨?_, ?_, ?_⟩
  · intro config player recipient choice d now
    simp [create_game]
  · intro config player recipient bet choice d now hmax
    have hne : bet ≠ 0 := by omega
    simp [create_game, hne, hmax]
  · intro config player recipient bet choice d now hpos hle
    have hne : bet ≠ 0 := by omega
    have hmax : ¬ config.max_bet_amount < bet := by omega
    refine
      ⟨{ player := player
         recipient := recipient
         bet_amount := bet
         choice := choice
         discount_percentage := d
         game_state := GameState.Created
         created_at := now
         result := none }, ?_, rfl⟩
    simp [create_game, hne, hmax]

/-- Witness for C5: a 7-lamport bet within the 100-lamport maximum
succeeds in the Created state, and a 101-lamport bet fails BetTooHigh. -/
theorem create_game_validation_witness :
    (∃ g, create_game sampleConfig 1 2 7 CoinSide.Heads 30 0 =
            Except.ok g ∧
          g.game_state = GameState.Created) ∧
    create_game sampleConfig 1 2 101 CoinSide.Heads 30 0 =
      Except.error LuckPayError.BetTooHigh :=
  ⟨create_game_validation.2.2 sampleConfig 1 2 7 CoinSide.Heads 30 0
      (by decide) (by decide),
    create_game_validation.2.1 sampleConfig 1 2 101 CoinSide.Heads 30 0
      (by decide)⟩

/-- C6 counterexample: with sendAmount 1 and treasury balance 2 the
balance meets the claimed 2× threshold (the escrowed amount), yet the
hook's checkTreasuryBalance reports insufficient, because the code
requires sendAmount + 2×sendAmount = 3×sendAmount. -/
theorem treasury_check_not_two_times :
    ¬ (((Hook.checkTreasuryBalance 2 1).sufficient = true) ↔
         (1 * 2 : Nat) ≤ 2) := by
  decide

/-- C6 amended: both treasury checks report sufficient iff the treasury
balance is at least 3 × sendAmount (the recipient amount plus the
2× escrow refund), and the check is evaluated by the calling layer:
playGame's pre-flight gate passes only if the check reports
sufficient. -/
theorem treasury_check_threshold (treasuryBalance sendAmount : Nat) :
    ((Hook.checkTreasuryBalance treasuryBalance sendAmount).sufficient =
        true ↔ 3 * sendAmount ≤ treasuryBalance) ∧
    ((SDK.checkTreasuryBalance treasuryBalance sendAmount).sufficient =
        true ↔ 3 * sendAmount ≤ treasuryBalance) ∧
    (∀ walletBalance : Nat,
       Hook.playGamePreflight walletBalance treasuryBalance sendAmount =
         true →
       (Hook.checkTreasuryBalance treasuryBalance sendAmount).sufficient =
         true) := by
  refine ⟨?_, ?_, ?_⟩
  · simp [Hook.checkTreasuryBalance]
    omega
  · simp [SDK.checkTreasuryBalance]
    omega
  · intro walletBalance h
    unfold Hook.playGamePreflight at h
    by_cases hw : walletBalance < sendAmount * 2 + 10000
    · simp [hw] at h
    · simpa [hw] using h

/-- Witness for C6 at treasury balance 30 and sendAmount 10: the
pre-flight gate passes and the check reports sufficient. -/
theorem treasury_check_threshold_witness :
    Hook.playGamePreflight 1000000 30 10 = true ∧
    (Hook.checkTreasuryBalance 30 10).sufficient = true :=
  ⟨by decide,
    (treasury_check_threshold 30 10).2.2 1000000 (by decide)⟩

/-- C7: after close_game succeeds on a resolved wager, the record no
longer exists — reading it (or closing again) fails with
AccountNotInitialized — and the bettor's balance strictly increases by
at least the allocation deposit charged at creation. -/
theorem close_game_effects (L L' : Ledger) (g : Game)
    (hg : L.game = some g) (hres : g.game_state = GameState.Resolved)
    (hdep : 0 < L.deposit)
    (h : close_game L = Except.ok L') :
    read_game L' = Except.error LuckPayError.AccountNotInitialized ∧
    close_game L' = Except.error LuckPayError.AccountNotInitialized ∧
    L.bettor_balance + L.deposit ≤ L'.bettor_balance ∧
    L.bettor_balance < L'.bettor_balance := by
  have hclose :
      close_game L = Except.ok
        { game := none
          bettor_balance := L.bettor_balance + L.deposit
          recipient_balance := L.recipient_balance
          treasury_balance := L.treasury_balance
          deposit := 0 } := by
    simp [close_game, hg, hres]
  rw [hclose] at h
  injection h with h'
  subst h'
  refine ⟨rfl, rfl, le_refl _, ?_⟩
  simpa using hdep

/-- Witness for C7 at sampleResolvedLedger (deposit 5): closing yields
sampleClosedLedger, unreadable afterwards, bettor balance up by 5. -/
theorem close_game_effects_witness :
    close_game sampleResolvedLedger = Except.ok sampleClosedLedger ∧
    read_game sampleClosedLedger =
      Except.error LuckPayError.AccountNotInitialized ∧
    sampleResolvedLedger.bettor_balance <
      sampleClosedLedger.bettor_balance :=
  ⟨by rfl,
    (close_game_effects sampleResolvedLedger sampleClosedLedger
        sampleResolvedWager (by rfl) (by rfl) (by decide) (by rfl)).1,
    (close_game_effects sampleResolvedLedger sampleClosedLedger
        sampleResolvedWager (by rfl) (by rfl) (by decide) (by rfl)).2.2.2⟩

/-- C8: initializeConfig is idempotent — if a Config already occupies the
singleton slot the call is a no-op returning it unchanged, otherwise it
allocates the Config with authority = caller, maxBet = the input, and
both aggregate counters zero; a second call after a successful first
call changes nothing. -/
theorem initializeConfig_idempotent :
    (∀ (c : Config) (caller max_bet : Nat),
       initializeConfig (some c) caller max_bet = some c) ∧
    (∀ caller max_bet : Nat,
       initializeConfig none caller max_bet =
         some
           { authority := caller
             max_bet_amount := max_bet
             total_games := 0
             total_volume := 0 }) ∧
    (∀ caller max_bet caller2 max_bet2 : Nat,
       initializeConfig (initializeConfig none caller max_bet) caller2
           max_bet2 =
         initializeConfig none caller max_bet) := by
  refine ⟨?_, ?_, ?_⟩
  · intro c caller max_bet
    rfl
  · intro caller max_bet
    rfl
  · intro caller max_bet caller2 max_bet2
    rfl

/-- C9: a successful create_game moves no bet funds — the Treasury and
the recipient balances are unchanged and the bettor is charged only the
account-allocation deposit plus fees, independently of the bet
amount. -/
theorem create_game_moves_no_bet_funds (config : Config) (L : Ledger)
    (player recipient bet_amount : Nat) (choice : CoinSide)
    (d now deposit fee : Nat) (L' : Ledger)
    (h : create_game_ledger config L player recipient bet_amount choice
           d now deposit fee = Except.ok L') :
    L'.treasury_balance = L.treasury_balance ∧
    L'.recipient_balance = L.recipient_balance ∧
    L'.bettor_balance = L.bettor_balance - (deposit + fee) := by
  unfold create_game_ledger at h
  cases hc : create_game config player recipient bet_amount choice d
      now with
  | error e =>
      rw [hc] at h
      exact absurd h (by simp)
  | ok g =>
      rw [hc] at h
      injection h with h'
      subst h'
      exact ⟨rfl, rfl, rfl⟩

/-- Witness for C9: creating a 7-lamport wager on sampleFreshLedger with
deposit 5 and fee 3 leaves treasury and recipient balances unchanged
and charges the bettor exactly 8. -/
theorem create_game_moves_no_bet_funds_witness :
    create_game_ledger sampleConfig sampleFreshLedger 1 2 7
        CoinSide.Heads 30 0 5 3 = Except.ok sampleCreatedLedger ∧
    sampleCreatedLedger.treasury_balance =
      sampleFreshLedger.treasury_balance ∧
    sampleCreatedLedger.bettor_balance =
      sampleFreshLedger.bettor_balance - (5 + 3) :=
  ⟨by rfl,
    (create_game_moves_no_bet_funds sampleConfig sampleFreshLedger 1 2 7
        CoinSide.Heads 30 0 5 3 sampleCreatedLedger (by rfl)).1,
    (create_game_moves_no_bet_funds sampleConfig sampleFreshLedger 1 2 7
        CoinSide.Heads 30 0 5 3 sampleCreatedLedger (by rfl)).2.2⟩

/-- C10: the SDK's checkTreasuryBalance and the client hook's
checkTreasuryBalance are equivalent — for every sendAmount and treasury
balance they compute the same required amount
(sendAmount + sendAmount × 2 = 3 × sendAmount) and return the same
sufficiency verdict (sufficient iff treasuryBalance ≥ 3 × sendAmount). -/
theorem checkTreasuryBalance_equivalent (treasuryBalance sendAmount : Nat) :
    SDK.checkTreasuryBalance treasuryBalance sendAmount =
      Hook.checkTreasuryBalance treasuryBalance sendAmount ∧
    (SDK.checkTreasuryBalance treasuryBalance sendAmount).required =
      3 * sendAmount ∧
    ((SDK.checkTreasuryBalance treasuryBalance sendAmount).sufficient =
        true ↔ 3 * sendAmount ≤ treasuryBalance) := by
  refine ⟨rfl, ?_, ?_⟩
  · simp [SDK.checkTreasuryBalance]
    omega
  · simp [SDK.checkTreasuryBalance]
    omega

end LuckPay
